import Mathlib

/-!
Verification of the zav-hospital reconciliation-and-allocation core.

This file is a shallow embedding of the Python sources
`zav_cloud_server.py` (approval workflow, slot pool, Telegram webhook) and
`sync_patients_daily.py` (daily sync job), together with theorems settling
the frozen claims about them.

Modelling conventions:
* The PostgreSQL tables `patients`, `doctors`, `operation_slots` become
  lists of records; a record's columns become structure fields, nullable
  columns become `Option`.
* `DatabaseManager.query`/`update` on a unique key become `List.find?` /
  `updateFirst` on the corresponding list: the Python code fetches the
  first row for a unique key and updates that row by its internal `id`,
  which is exactly `updateFirst` with the key predicate.
* `DatabaseManager.insert` catches every exception and returns `None`, so
  the only observable failure is the UNIQUE-constraint violation: an
  insert whose key already exists leaves the table unchanged.
* `updated_at` / bookkeeping timestamps maintained by `db.update` are
  abstracted away; `datetime.now()` values that land in business columns
  (`approved_at`, `last_synced_at`, generated patient ids) are passed in
  as an explicit `now : Nat` parameter.
* Python string functions used by the code (`strip`, `lower`, `split`,
  `replace`, `startswith`, truthiness of `""`/`None`) are re-implemented
  structurally over `List Char` so that all definitions evaluate by
  kernel reduction.
-/

namespace Zav

/-! ## Python string helpers -/

/-- Python `s.strip()` on the left. -/
def dropWsL (cs : List Char) : List Char := cs.dropWhile Char.isWhitespace

/-- Python `s.strip()`: drop whitespace at both ends. -/
def trimChars (cs : List Char) : List Char :=
  ((dropWsL cs).reverse.dropWhile Char.isWhitespace).reverse

/-- Python `s.strip()`. -/
def pyStrip (s : String) : String := ⟨trimChars s.data⟩

/-- Python `s.lower()` (ASCII, which is all the code compares against). -/
def pyLower (s : String) : String := ⟨s.data.map Char.toLower⟩

/-- Python `s.startswith(pre)`. -/
def pyStartsWith (s pre : String) : Bool := pre.data.isPrefixOf s.data

/-- Python `c in s` for a single character. -/
def pyContainsChar (s : String) (c : Char) : Bool := s.data.any (· == c)

/-- Helper for Python `s.split(sep)` with a one-character separator. -/
def splitCharAux (sep : Char) : List Char → List Char → List String
  | cur, [] => [String.mk cur.reverse]
  | cur, c :: cs =>
    if c == sep then String.mk cur.reverse :: splitCharAux sep [] cs
    else splitCharAux sep (c :: cur) cs

/-- Python `s.split(sep)` for a one-character separator (e.g. `","`). -/
def pySplitChar (s : String) (sep : Char) : List String := splitCharAux sep [] s.data

/-- Helper for Python `s.split()` (whitespace runs, empties dropped). -/
def wordsAux : List Char → List Char → List String
  | cur, [] => if cur.isEmpty then [] else [String.mk cur.reverse]
  | cur, c :: cs =>
    if c.isWhitespace then
      if cur.isEmpty then wordsAux [] cs
      else String.mk cur.reverse :: wordsAux [] cs
    else wordsAux (c :: cur) cs

/-- Python `s.split()`: split on whitespace runs, dropping empty pieces. -/
def pySplitWs (s : String) : List String := wordsAux [] s.data

/-- One whitespace-delimited token and the rest. -/
def takeTok (cs : List Char) : List Char × List Char :=
  (cs.takeWhile (fun c => !c.isWhitespace), cs.dropWhile (fun c => !c.isWhitespace))

/-- Python `s.split(None, 2)`: at most two splits on whitespace; the third
piece is the remainder with its leading whitespace stripped. -/
def pySplitNone2 (s : String) : List String :=
  let cs := dropWsL s.data
  match takeTok cs with
  | (t1, r1) =>
    if t1 = [] then []
    else
      let r1w := dropWsL r1
      match takeTok r1w with
      | (t2, r2) =>
        if t2 = [] then [String.mk t1]
        else
          let rest := dropWsL r2
          if rest = [] then [String.mk t1, String.mk t2]
          else [String.mk t1, String.mk t2, String.mk rest]

/-- Helper for Python `s.replace(pat, repl)`: fuel-indexed so the recursion
is structural; fuel `s.length` suffices because every step consumes at
least one character (the code only calls it with a non-empty pattern). -/
def replaceAux (pat repl : List Char) : Nat → List Char → List Char
  | _, [] => []
  | 0, s => s
  | fuel + 1, c :: cs =>
    if pat.isPrefixOf (c :: cs) then
      repl ++ replaceAux pat repl fuel ((c :: cs).drop pat.length)
    else
      c :: replaceAux pat repl fuel cs

/-- Python `s.replace(pat, repl)` (left-to-right, non-overlapping). -/
def pyReplace (s pat repl : String) : String :=
  ⟨replaceAux pat.data repl.data s.data.length s.data⟩

/-- Python truthiness for an optional string: `None` and `""` are falsy. -/
def pyTruthy : Option String → Bool
  | none => false
  | some s => s ≠ ""

/-- Python `a or dflt` for an optional string `a` and a string default. -/
def pyOrStr (a : Option String) (dflt : String) : String :=
  match a with
  | some s => if s = "" then dflt else s
  | none => dflt

/-- Python `a or b` for two optional strings. -/
def pyOrOpt (a b : Option String) : Option String :=
  match a with
  | some s => if s = "" then b else some s
  | none => b

/-! ## Dates

`zav_cloud_server.py` uses `datetime.strptime(start_date, "%Y-%m-%d").date()`
plus `timedelta(days=k)` and `strftime("%Y%m%d")`.  We embed a Gregorian
calendar date with day-successor arithmetic. -/

structure Date where
  year : Nat
  month : Nat
  day : Nat
  deriving DecidableEq

def isLeap (y : Nat) : Bool := (y % 4 == 0 && y % 100 != 0) || y % 400 == 0

def daysInMonth (y m : Nat) : Nat :=
  if m == 2 then (if isLeap y then 29 else 28)
  else if m == 4 || m == 6 || m == 9 || m == 11 then 30
  else 31

def nextDay (d : Date) : Date :=
  if d.day < daysInMonth d.year d.month then { d with day := d.day + 1 }
  else if d.month < 12 then { year := d.year, month := d.month + 1, day := 1 }
  else { year := d.year + 1, month := 1, day := 1 }

/-- `d + timedelta(days := n)`. -/
def addDays (d : Date) : Nat → Date
  | 0 => d
  | n + 1 => nextDay (addDays d n)

/-- Zero-pad a number to two digits, as `strftime("%m")`/`%d` do. -/
def pad2 (n : Nat) : String := if n < 10 then "0" ++ toString n else toString n

/-- Zero-pad a year to four digits, as `strftime("%Y")` does. -/
def pad4 (n : Nat) : String :=
  if n < 10 then "000" ++ toString n
  else if n < 100 then "00" ++ toString n
  else if n < 1000 then "0" ++ toString n
  else toString n

/-- `slot_date.strftime("%Y%m%d")`. -/
def yyyymmdd (d : Date) : String := pad4 d.year ++ pad2 d.month ++ pad2 d.day

/-- `datetime.strptime(s, "%Y-%m-%d")`: `none` models the `ValueError` path. -/
def parseDate (s : String) : Option Date :=
  match pySplitChar s '-' with
  | [ys, ms, ds] =>
    match ys.toNat?, ms.toNat?, ds.toNat? with
    | some y, some m, some d =>
      if 1 ≤ m && m ≤ 12 && 1 ≤ d && d ≤ daysInMonth y m then some ⟨y, m, d⟩ else none
    | _, _, _ => none
  | _ => none

/-! ## Data model

Columns of the `patients`, `doctors` and `operation_slots` tables that the
embedded operations read or write (schema in `DatabaseManager._init_schema`
plus the columns referenced by `sync_patients_daily.py`). -/

structure Patient where
  patient_id : String
  name : String
  admission_date : Option String := none
  status : String := "active"
  source : String := "manual"
  operation : Option String := none
  age : Option String := none
  notes : Option String := none
  approved_at : Option Nat := none
  approved_by : Option String := none
  assigned_doctor_id : Option String := none
  assigned_doctor_name : Option String := none
  hospitalization_date : Option String := none
  rejection_reason : Option String := none
  external_id : Option String := none
  last_synced_at : Option Nat := none
  operation_type : Option String := none
  planned_admission_date : Option String := none
  priority : Option String := none
  deriving DecidableEq

structure Doctor where
  doctor_id : String
  name : String
  specialization : Option String := none
  available : Bool := true
  max_patients : Nat := 12
  current_load : Nat := 0
  deriving DecidableEq

structure Slot where
  slot_id : String
  date : Date
  time_start : String
  time_end : String
  or_room : String
  doctor_id : Option String := none
  patient_id : Option String := none
  operation_type : Option String := none
  status : String := "available"
  deriving DecidableEq

/-- The three mutable tables. -/
structure DB where
  patients : List Patient := []
  doctors : List Doctor := []
  slots : List Slot := []
  deriving DecidableEq

/-- `UPDATE ... WHERE id = first-match`: the code always resolves a unique
key to the first (only) row and updates that row in place. -/
def updateFirst (q : α → Bool) (f : α → α) : List α → List α
  | [] => []
  | x :: xs => if q x then f x :: xs else x :: updateFirst q f xs

/-- `SELECT * FROM patients WHERE patient_id = %s`, first row. -/
def DB.findPatient (db : DB) (pid : String) : Option Patient :=
  db.patients.find? (fun p => p.patient_id == pid)

/-- `SELECT * FROM doctors WHERE doctor_id = %s`, first row. -/
def DB.findDoctor (db : DB) (did : String) : Option Doctor :=
  db.doctors.find? (fun d => d.doctor_id == did)

/-- `SELECT id FROM operation_slots WHERE slot_id = %s`, first row. -/
def DB.findSlot (db : DB) (sid : String) : Option Slot :=
  db.slots.find? (fun s => s.slot_id == sid)

/-- Does some slot carry this `slot_id` (the UNIQUE constraint test)? -/
def DB.hasSlotId (db : DB) (sid : String) : Bool :=
  db.slots.any (fun s => s.slot_id == sid)

/-- `DatabaseManager.insert "operation_slots"`: the UNIQUE violation is
swallowed inside `insert` (it returns `None`), leaving the table as it was. -/
def DB.insertSlot (db : DB) (s : Slot) : DB :=
  if db.hasSlotId s.slot_id then db else { db with slots := db.slots ++ [s] }

/-- Insert into `patients`; a duplicate `patient_id` violates the UNIQUE
constraint and leaves the table unchanged (the callers catch the error). -/
def DB.insertPatient (db : DB) (p : Patient) : DB :=
  if db.patients.any (fun q => q.patient_id == p.patient_id) then db
  else { db with patients := db.patients ++ [p] }

/-! ## REST API results -/

/-- Outcome of a JSON endpoint: the HTTP status and error message the code
returns.  The spec's `NotFoundError` is the 404 response and its
`ConflictError` is the 400 "Patient is not pending" response. -/
inductive ApiResult where
  | ok (pid : String)
  | err (code : Nat) (msg : String)
  deriving DecidableEq

/-! ## approve_patient (zav_cloud_server.py lines 470-522)

The request body; the three required fields are present (the handler's
missing-field 400 check has already passed), `approved_by` is optional
(`data.get("approved_by", "admin")`). -/

structure ApproveRequest where
  hospitalization_date : String
  assigned_doctor_id : String
  operation_slot_id : String
  approved_by : Option String := none

/-- The column set the approve handler writes to the reserved slot
(`db.update("operation_slots", ...)`); `op` is `patient[0].get("operation")`. -/
def approveSlotWrite (pid : String) (req : ApproveRequest) (op : Option String) (s : Slot) :
    Slot :=
  { s with patient_id := some pid, doctor_id := some req.assigned_doctor_id,
           operation_type := op, status := "reserved" }

/-- The column set the approve handler writes to the patient
(`update_data`); note there is no `assigned_slot_id` column to write. -/
def approvePatientWrite (req : ApproveRequest) (now : Nat) (doctor_name : Option String)
    (q : Patient) : Patient :=
  { q with status := "approved", approved_at := some now,
           approved_by := some (req.approved_by.getD "admin"),
           assigned_doctor_id := some req.assigned_doctor_id,
           assigned_doctor_name := doctor_name,
           hospitalization_date := some req.hospitalization_date }

/-- `PUT /api/patients/<patient_id>/approve`.  Note what the code does and
does not check: the patient must exist with status `pending`; the slot is
looked up by id and, when found, overwritten to `reserved` regardless of
its current status; the doctor is only looked up for its display name; no
row of `doctors` is ever written (in particular `current_load` is not
incremented) and no `assigned_slot_id` is stored (the column does not
exist). -/
def approve_patient (db : DB) (pid : String) (req : ApproveRequest) (now : Nat) :
    DB × ApiResult :=
  match db.findPatient pid with
  | none => (db, .err 404 "Patient not found")
  | some p =>
    if p.status != "pending" then (db, .err 400 "Patient is not pending")
    else
      let doctor_name := (db.findDoctor req.assigned_doctor_id).map Doctor.name
      let slots' :=
        match db.findSlot req.operation_slot_id with
        | none => db.slots
        | some _ =>
          updateFirst (fun s => s.slot_id == req.operation_slot_id)
            (approveSlotWrite pid req p.operation) db.slots
      let patients' :=
        updateFirst (fun q => q.patient_id == pid)
          (approvePatientWrite req now doctor_name) db.patients
      ({ db with patients := patients', slots := slots' }, .ok pid)

/-! ## reject_patient (zav_cloud_server.py lines 524-556) -/

/-- `PUT /api/patients/<patient_id>/reject`.  `data.get("rejection_reason")`
truthiness: a missing or empty reason is the 400 path, modelled as `""`. -/
def reject_patient (db : DB) (pid : String) (reason : String) : DB × ApiResult :=
  if reason == "" then (db, .err 400 "rejection_reason required")
  else
    match db.findPatient pid with
    | none => (db, .err 404 "Patient not found")
    | some p =>
      if p.status != "pending" then (db, .err 400 "Patient is not pending")
      else
        let patients' :=
          updateFirst (fun q => q.patient_id == pid)
            (fun q => { q with status := "rejected", rejection_reason := some reason })
            db.patients
        ({ db with patients := patients' }, .ok pid)

/-! ## generate_weekly_slots (zav_cloud_server.py lines 834-890) -/

/-- `slot_id = f"SLOT_{date:%Y%m%d}_{room}_{shift}"`. -/
def slotIdFor (d : Date) (room shift : String) : String :=
  "SLOT_" ++ yyyymmdd d ++ "_" ++ room ++ "_" ++ shift

/-- A morning slot (08:00-12:00) in the given room. -/
def amSlot (d : Date) (room : String) : Slot :=
  { slot_id := slotIdFor d room "AM", date := d, time_start := "08:00",
    time_end := "12:00", or_room := room, status := "available" }

/-- The afternoon slot (13:00-17:00) in OR-3. -/
def pmSlot (d : Date) : Slot :=
  { slot_id := slotIdFor d "OR-3" "PM", date := d, time_start := "13:00",
    time_end := "17:00", or_room := "OR-3", status := "available" }

/-- The fixed weekly template the generation loop walks: for each of the
five consecutive days from `start`, OR-1 and OR-2 in the morning and OR-3
in the afternoon. -/
def weekSlots (start : Date) : List Slot :=
  (List.range 5).flatMap (fun off =>
    let d := addDays start off
    [amSlot d "OR-1", amSlot d "OR-2", pmSlot d])

/-- `POST /api/operation-slots/generate-weekly` after a successful
`strptime`.  `created_count += 1` runs on every iteration no matter what:
`DatabaseManager.insert` catches its own exceptions and returns `None`, so
the loop's `except: pass` guard never fires and the counter does not
reflect whether a row was actually inserted. -/
def generate_weekly_slots (db : DB) (start : Date) : DB × Nat :=
  (weekSlots start).foldl (fun st s => (st.1.insertSlot s, st.2 + 1)) (db, 0)

/-! ## Daily sync job (sync_patients_daily.py)

The two per-source batch processors and the `run()` driver.  Network and
credential plumbing is out of scope; the already-fetched row lists are the
inputs.  The per-record `try/except` only catches database errors, which
the pure embedding cannot raise, so the error counters stay at their
initial value 0 here; a missing-name row is skipped by `continue`, not
counted as an error. -/

/-- A record returned by the Cyberintern EMR poll, with the alternative
key spellings the code probes (`patient.get("id") or patient.get("patient_id")`
etc.); values are already stringified as the code does with `str(...)`. -/
structure CyberRow where
  id : Option String := none
  patient_id : Option String := none
  name : Option String := none
  full_name : Option String := none
  admission_date : Option String := none
  admitted_at : Option String := none
  status : Option String := none

/-- One iteration of `PatientSync._process_cyberintern_patients`:
state is `(db, synced)`. -/
def processCyberRow (now : Nat) (st : DB × Nat) (row : CyberRow) : DB × Nat :=
  let db := st.1
  let synced := st.2
  match pyOrOpt row.id row.patient_id, pyOrOpt row.name row.full_name with
  | some pid, some nm =>
    if pid == "" || nm == "" then (db, synced)
    else
      let status := pyOrStr row.status "active"
      match db.findPatient pid with
      | some _ =>
        let patients' :=
          updateFirst (fun p => p.patient_id == pid)
            (fun p => { p with name := nm, status := status, source := "cyberintern",
                               external_id := some pid, last_synced_at := some now })
            db.patients
        ({ db with patients := patients' }, synced + 1)
      | none =>
        (db.insertPatient
          { patient_id := pid, name := nm,
            admission_date := pyOrOpt row.admission_date row.admitted_at,
            status := status, source := "cyberintern", external_id := some pid,
            last_synced_at := some now },
         synced + 1)
  | _, _ => (db, synced)

/-- `PatientSync._process_cyberintern_patients`. -/
def processCyber (db : DB) (rows : List CyberRow) (now : Nat) : DB × Nat :=
  rows.foldl (processCyberRow now) (db, 0)

/-- A row of the "Planned Patients" sheet (`get_all_records()`). -/
structure SheetRow where
  patientId : Option String := none
  name : Option String := none
  operation : Option String := none
  plannedDate : Option String := none
  priority : Option String := none
  status : Option String := none

/-- The match predicate of `_process_planned_patients`:
`WHERE patient_id = %s OR (name = %s AND source = 'external')`. -/
def plannedMatch (pid nm : String) (p : Patient) : Bool :=
  p.patient_id == pid || (p.name == nm && p.source == "external")

/-- One iteration of `PatientSync._process_planned_patients`: state is
`(db, synced)`.  A falsy `Patient ID` is replaced by a generated
`f"PL{timestamp}"` id; a falsy `Name` skips the row (`continue`). -/
def processPlannedRow (now : Nat) (st : DB × Nat) (row : SheetRow) : DB × Nat :=
  let db := st.1
  let synced := st.2
  let pid := pyOrStr row.patientId ("PL" ++ toString now)
  match row.name with
  | none => (db, synced)
  | some nm =>
    if nm == "" then (db, synced)
    else
      let priority := pyOrStr row.priority "routine"
      let status := pyOrStr row.status "planned"
      match db.patients.find? (plannedMatch pid nm) with
      | some _ =>
        let patients' :=
          updateFirst (plannedMatch pid nm)
            (fun p => { p with operation_type := row.operation,
                               planned_admission_date := row.plannedDate,
                               priority := some priority, status := status,
                               source := "external", last_synced_at := some now })
            db.patients
        ({ db with patients := patients' }, synced + 1)
      | none =>
        (db.insertPatient
          { patient_id := pid, name := nm, operation_type := row.operation,
            planned_admission_date := row.plannedDate, priority := some priority,
            status := status, source := "external", last_synced_at := some now },
         synced + 1)

/-- `PatientSync._process_planned_patients`. -/
def processPlanned (db : DB) (rows : List SheetRow) (now : Nat) : DB × Nat :=
  rows.foldl (processPlannedRow now) (db, 0)

/-- The per-source counters of `PatientSync.sync_stats` that `run()`
reports.  Errors can only come from database exceptions, which do not
arise in the pure embedding, so they stay 0. -/
structure SyncStats where
  cyberintern_synced : Nat := 0
  cyberintern_errors : Nat := 0
  sheets_synced : Nat := 0
  sheets_errors : Nat := 0
  deriving DecidableEq

/-- The summary object `PatientSync.get_summary` builds. -/
structure SyncSummary where
  active_patients : Nat
  planned_patients : Nat
  total_patients : Nat
  stats : SyncStats
  deriving DecidableEq

/-- `PatientSync.get_summary`. -/
def get_summary (db : DB) (stats : SyncStats) : SyncSummary :=
  { active_patients :=
      (db.patients.filter (fun p => p.source == "cyberintern" && p.status == "active")).length,
    planned_patients :=
      (db.patients.filter (fun p => p.source == "external" && p.status == "planned")).length,
    total_patients := db.patients.length,
    stats := stats }

/-- `PatientSync.run()`: Cyberintern first, then the sheet, then the
summary with the aggregated per-source counters. -/
def runSync (db : DB) (cyberRows : List CyberRow) (sheetRows : List SheetRow) (now : Nat) :
    DB × SyncSummary :=
  let c := processCyber db cyberRows now
  let s := processPlanned c.1 sheetRows now
  let stats : SyncStats := { cyberintern_synced := c.2, sheets_synced := s.2 }
  (s.1, get_summary s.1 stats)

/-! ## Telegram webhook (zav_cloud_server.py lines 930-1193)

The webhook is modelled as a function of the decoded request body:
`none` stands for a body that is missing or is not JSON (Flask's
`get_json` error is caught by the handler's catch-all, which also returns
200 `{"ok": true}`).  `send_telegram_reply` is outbound I/O whose result
only feeds the logs, so replies are dropped from the state. -/

structure TgMessage where
  chat_id : Option Int := none
  text : Option String := none

structure TgUpdate where
  message : Option TgMessage := none

/-- What the endpoint hands back to Telegram: HTTP status and the `ok`
field of the JSON body. -/
structure HttpResponse where
  status : Nat
  ok : Bool
  deriving DecidableEq

/-- The command-dispatch chain run once a non-empty `text` and a truthy
`chat_id` have been extracted.  Branch order is the code's: /start, /help,
/pending, /addpatient-without-comma, the comma-separated patient-data
pattern (which falls through when its inner length check fails), /approve,
/reject, /status, default.  Only the patient-data, /approve and /reject
branches touch the database; /approve and /reject go through the same REST
handlers the code calls over loopback HTTP. -/
def handleText (db : DB) (cid : Int) (text : String) (now : Nat) : DB × HttpResponse :=
  let lower := pyLower text
  if pyStartsWith lower "/start" then (db, ⟨200, true⟩)
  else if pyStartsWith lower "/help" then (db, ⟨200, true⟩)
  else if pyStartsWith lower "/pending" then (db, ⟨200, true⟩)
  else if pyStartsWith lower "/addpatient" && !pyContainsChar text ',' then (db, ⟨200, true⟩)
  else
    -- The comma-separated patient-data pattern.  In the code this is a
    -- nested pair of length checks whose inner failure falls through to
    -- the command checks below; the two checks are conjoined here, which
    -- is the same control flow for a pure computation.
    let data_text := pyStrip (pyReplace text "/addpatient" "")
    let parts := pySplitChar data_text ','
    if pyContainsChar text ',' && decide ((pySplitChar text ',').length ≥ 3) &&
        decide (parts.length ≥ 3) then
      let name := pyStrip (parts.getD 0 "")
      let age := pyStrip (parts.getD 1 "")
      let op := pyStrip (parts.getD 2 "")
      let notes := if parts.length > 3 then pyStrip (parts.getD 3 "") else "-"
      let pid := "EX" ++ toString cid ++ toString now
      (db.insertPatient
        { patient_id := pid, name := name, age := some age, operation := some op,
          notes := some notes, status := "pending", source := "telegram" },
       ⟨200, true⟩)
    else
      if pyStartsWith lower "/approve " then
        let parts := pySplitWs text
        if parts.length < 4 then (db, ⟨200, true⟩)
        else
          let patient_id := parts.getD 1 ""
          let approval_date := parts.getD 2 ""
          let doctor_id := parts.getD 3 ""
          let avail := (db.slots.filter
            (fun s => (parseDate approval_date == some s.date) && s.status == "available")).take 5
          match avail with
          | [] => (db, ⟨200, true⟩)
          | s :: _ =>
            let r := approve_patient db patient_id
              { hospitalization_date := approval_date, assigned_doctor_id := doctor_id,
                operation_slot_id := s.slot_id } now
            (r.1, ⟨200, true⟩)
      else if pyStartsWith lower "/reject " then
        let parts := pySplitNone2 text
        if parts.length < 3 then (db, ⟨200, true⟩)
        else
          let patient_id := parts.getD 1 ""
          let reason := parts.getD 2 ""
          let r := reject_patient db patient_id reason
          (r.1, ⟨200, true⟩)
      else if pyStartsWith lower "/status" || lower == "status" then (db, ⟨200, true⟩)
      else (db, ⟨200, true⟩)

/-- `POST /webhook/telegram` (`handle_telegram`).  All four early checks
— no JSON, no `"message"` key, falsy `chat_id` (missing or 0), empty
stripped text — return 200 `{"ok": true}` without touching the database,
and the catch-all `except` returns the same, so the endpoint never
surfaces an error status. -/
def handle_telegram (db : DB) (upd : Option TgUpdate) (now : Nat) : DB × HttpResponse :=
  match upd with
  | none => (db, ⟨200, true⟩)
  | some data =>
    match data.message with
    | none => (db, ⟨200, true⟩)
    | some msg =>
      match msg.chat_id with
      | none => (db, ⟨200, true⟩)
      | some cid =>
        if cid == 0 then (db, ⟨200, true⟩)
        else if pyStrip (msg.text.getD "") == "" then (db, ⟨200, true⟩)
        else handleText db cid (pyStrip (msg.text.getD "")) now

/-- The four early checks of `handle_telegram` that return before any
database access: missing/invalid JSON, no `"message"` key, falsy
`chat_id`, empty stripped text. -/
def webhookEarlyExit (upd : Option TgUpdate) : Prop :=
  match upd with
  | none => True
  | some data =>
    match data.message with
    | none => True
    | some m => m.chat_id = none ∨ m.chat_id = some 0 ∨ pyStrip (m.text.getD "") = ""

/-! ## List lemmas about `updateFirst`, `find?` and the insert fold -/

theorem updateFirst_find? {α : Type} (q : α → Bool) (f : α → α)
    (hf : ∀ a, q a = true → q (f a) = true) :
    ∀ l : List α, (updateFirst q f l).find? q = (l.find? q).map f := by
  intro l
  induction l with
  | nil => rfl
  | cons x xs ih =>
    by_cases hq : q x = true
    · simp [updateFirst, hq, List.find?_cons, hf x hq]
    · simp only [Bool.not_eq_true] at hq
      simp [updateFirst, hq, List.find?_cons, ih]

theorem mem_updateFirst_of_neg {α : Type} (q : α → Bool) (f : α → α) (x : α)
    (hx : q x = false) : ∀ l : List α, x ∈ l → x ∈ updateFirst q f l := by
  intro l
  induction l with
  | nil => simp
  | cons y ys ih =>
    intro hmem
    by_cases hq : q y = true
    · simp only [updateFirst, hq, if_true]
      rcases List.mem_cons.mp hmem with h | h
      · subst h; rw [hx] at hq; exact absurd hq (by simp)
      · exact List.mem_cons_of_mem _ h
    · simp only [Bool.not_eq_true] at hq
      simp only [updateFirst, hq, Bool.false_eq_true, if_false]
      rcases List.mem_cons.mp hmem with h | h
      · exact h ▸ List.mem_cons_self _ _
      · exact List.mem_cons_of_mem _ (ih h)

theorem updateFirst_length {α : Type} (q : α → Bool) (f : α → α) :
    ∀ l : List α, (updateFirst q f l).length = l.length := by
  intro l
  induction l with
  | nil => rfl
  | cons x xs ih =>
    by_cases hq : q x = true
    · simp [updateFirst, hq]
    · simp only [Bool.not_eq_true] at hq
      simp [updateFirst, hq, ih]

theorem filter_eq_nil_of_neg {α : Type} {p : α → Bool} :
    ∀ l : List α, (∀ a ∈ l, p a = false) → l.filter p = [] := by
  intro l
  induction l with
  | nil => simp
  | cons x xs ih =>
    intro h
    simp only [List.filter_cons, h x (List.mem_cons_self _ _), Bool.false_eq_true, if_false]
    exact ih (fun a ha => h a (List.mem_cons_of_mem _ ha))

theorem filter_updateFirst_single {α : Type} {q pq : α → Bool} {f : α → α} {s : α} :
    ∀ l : List α, (∀ t ∈ l, pq t = false) → l.find? q = some s → pq (f s) = true →
      (updateFirst q f l).filter pq = [f s] := by
  intro l
  induction l with
  | nil => intro _ h; exact absurd h (by simp)
  | cons x xs ih =>
    intro hno hfind hpf
    by_cases hq : q x = true
    · rw [List.find?_cons_of_pos _ hq] at hfind
      injection hfind with hx
      subst hx
      simp only [updateFirst, hq, if_true, List.filter_cons, hpf, if_true]
      rw [filter_eq_nil_of_neg xs (fun a ha => hno a (List.mem_cons_of_mem _ ha))]
    · simp only [Bool.not_eq_true] at hq
      rw [List.find?_cons_of_neg _ (by simp [hq])] at hfind
      simp only [updateFirst, hq, Bool.false_eq_true, if_false, List.filter_cons,
        hno x (List.mem_cons_self _ _)]
      exact ih (fun a ha => hno a (List.mem_cons_of_mem _ ha)) hfind hpf

theorem insertSlot_patients (db : DB) (s : Slot) : (db.insertSlot s).patients = db.patients := by
  unfold DB.insertSlot; split <;> rfl

theorem insertSlot_doctors (db : DB) (s : Slot) : (db.insertSlot s).doctors = db.doctors := by
  unfold DB.insertSlot; split <;> rfl

theorem insertSlot_of_has (db : DB) (s : Slot) (h : db.hasSlotId s.slot_id = true) :
    db.insertSlot s = db := by
  unfold DB.insertSlot; rw [h]; rfl

theorem insertSlot_fresh (db : DB) (s : Slot) (h : db.hasSlotId s.slot_id = false) :
    db.insertSlot s = { db with slots := db.slots ++ [s] } := by
  unfold DB.insertSlot; rw [h]; rfl

theorem hasSlotId_insertSlot (db : DB) (s : Slot) (k : String) (h : db.hasSlotId k = true) :
    (db.insertSlot s).hasSlotId k = true := by
  unfold DB.insertSlot
  split
  · exact h
  · simp only [DB.hasSlotId, List.any_append] at h ⊢
    simp [h]

theorem hasSlotId_insertSlot_self (db : DB) (s : Slot) :
    (db.insertSlot s).hasSlotId s.slot_id = true := by
  unfold DB.insertSlot
  split
  · assumption
  · simp [DB.hasSlotId, List.any_append]

/-- The slot-generation fold, separated into its state part and its count
part: the counter is `+ length` no matter what the inserts do. -/
theorem genFold_eq (l : List Slot) : ∀ (db : DB) (k : Nat),
    l.foldl (fun st s => (st.1.insertSlot s, st.2 + 1)) (db, k) =
      (l.foldl DB.insertSlot db, k + l.length) := by
  induction l with
  | nil => intro db k; simp
  | cons s rest ih =>
    intro db k
    simp only [List.foldl_cons, List.length_cons, ih]
    have hk : k + 1 + rest.length = k + (rest.length + 1) := by omega
    rw [hk]

theorem foldIns_has (l : List Slot) : ∀ (db : DB) (k : String),
    db.hasSlotId k = true → (l.foldl DB.insertSlot db).hasSlotId k = true := by
  induction l with
  | nil => intro db k h; exact h
  | cons s rest ih =>
    intro db k h
    exact ih _ _ (hasSlotId_insertSlot db s k h)

theorem foldIns_adds (l : List Slot) : ∀ (db : DB), ∀ s ∈ l,
    (l.foldl DB.insertSlot db).hasSlotId s.slot_id = true := by
  induction l with
  | nil => intro db s h; exact absurd h (by simp)
  | cons t rest ih =>
    intro db s hmem
    rcases List.mem_cons.mp hmem with h | h
    · subst h
      exact foldIns_has rest _ _ (hasSlotId_insertSlot_self db s)
    · exact ih _ s h

theorem foldIns_stable (l : List Slot) : ∀ (db : DB),
    (∀ s ∈ l, db.hasSlotId s.slot_id = true) → l.foldl DB.insertSlot db = db := by
  induction l with
  | nil => intro db _; rfl
  | cons t rest ih =>
    intro db h
    simp only [List.foldl_cons, insertSlot_of_has db t (h t (List.mem_cons_self _ _))]
    exact ih db (fun s hs => h s (List.mem_cons_of_mem _ hs))

theorem foldIns_fresh (l : List Slot) : ∀ (db : DB),
    (l.map Slot.slot_id).Nodup → (∀ s ∈ l, db.hasSlotId s.slot_id = false) →
    l.foldl DB.insertSlot db = { db with slots := db.slots ++ l } := by
  induction l with
  | nil => intro db _ _; simp
  | cons t rest ih =>
    intro db hnd hf
    simp only [List.map_cons, List.nodup_cons] at hnd
    simp only [List.foldl_cons, insertSlot_fresh db t (hf t (List.mem_cons_self _ _))]
    rw [ih _ hnd.2]
    · simp
    · intro s hs
      simp only [DB.hasSlotId, List.any_append, Bool.or_eq_false_iff]
      constructor
      · exact hf s (List.mem_cons_of_mem _ hs)
      · simp only [List.any_cons, List.any_nil, Bool.or_false, beq_eq_false_iff_ne]
        intro hEq
        exact hnd.1 (hEq ▸ List.mem_map_of_mem Slot.slot_id hs)

theorem weekSlots_length (start : Date) : (weekSlots start).length = 15 := by rfl

/-! ## Characterization of `approve_patient` and `reject_patient` -/

theorem approve_of_not_found {db : DB} {pid : String} (req : ApproveRequest) (now : Nat)
    (h : db.findPatient pid = none) :
    approve_patient db pid req now = (db, .err 404 "Patient not found") := by
  unfold approve_patient; rw [h]

theorem approve_of_not_pending {db : DB} {pid : String} {p : Patient}
    (req : ApproveRequest) (now : Nat)
    (hp : db.findPatient pid = some p) (hs : p.status ≠ "pending") :
    approve_patient db pid req now = (db, .err 400 "Patient is not pending") := by
  unfold approve_patient; rw [hp]; simp [hs]

theorem approve_of_pending {db : DB} {pid : String} {p : Patient}
    (req : ApproveRequest) (now : Nat)
    (hp : db.findPatient pid = some p) (hs : p.status = "pending") :
    approve_patient db pid req now =
      ({ db with
          patients := updateFirst (fun q => q.patient_id == pid)
            (approvePatientWrite req now ((db.findDoctor req.assigned_doctor_id).map Doctor.name))
            db.patients,
          slots :=
            match db.findSlot req.operation_slot_id with
            | none => db.slots
            | some _ =>
              updateFirst (fun s => s.slot_id == req.operation_slot_id)
                (approveSlotWrite pid req p.operation) db.slots },
       .ok pid) := by
  unfold approve_patient; rw [hp]; simp [hs]

theorem approve_doctors_eq (db : DB) (pid : String) (req : ApproveRequest) (now : Nat) :
    (approve_patient db pid req now).1.doctors = db.doctors := by
  cases hp : db.findPatient pid with
  | none => rw [approve_of_not_found req now hp]
  | some p =>
    by_cases hs : p.status = "pending"
    · rw [approve_of_pending req now hp hs]
    · rw [approve_of_not_pending req now hp hs]

theorem approve_ok_iff (db : DB) (pid : String) (req : ApproveRequest) (now : Nat) :
    (approve_patient db pid req now).2 = .ok pid ↔
      ∃ p, db.findPatient pid = some p ∧ p.status = "pending" := by
  cases hp : db.findPatient pid with
  | none =>
    rw [approve_of_not_found req now hp]
    simp
  | some p =>
    by_cases hs : p.status = "pending"
    · rw [approve_of_pending req now hp hs]
      simp only [true_iff]
      exact ⟨p, rfl, hs⟩
    · rw [approve_of_not_pending req now hp hs]
      constructor
      · intro h; cases h
      · rintro ⟨p', hEq, hs'⟩
        injection hEq with hEq
        exact absurd (hEq.symm ▸ hs') hs

theorem approve_find_patient {db : DB} {pid : String} {p : Patient}
    (req : ApproveRequest) (now : Nat)
    (hp : db.findPatient pid = some p) (hs : p.status = "pending") :
    (approve_patient db pid req now).1.findPatient pid =
      some (approvePatientWrite req now
        ((db.findDoctor req.assigned_doctor_id).map Doctor.name) p) := by
  rw [approve_of_pending req now hp hs]
  show (updateFirst (fun q => q.patient_id == pid) _ db.patients).find? _ = _
  rw [updateFirst_find? (fun q => q.patient_id == pid)
    (approvePatientWrite req now ((db.findDoctor req.assigned_doctor_id).map Doctor.name))
    (fun a h => h)]
  rw [show db.patients.find? (fun q => q.patient_id == pid) = some p from hp]
  rfl

theorem approve_find_slot {db : DB} {pid : String} {p : Patient} {s : Slot}
    (req : ApproveRequest) (now : Nat)
    (hp : db.findPatient pid = some p) (hs : p.status = "pending")
    (hsl : db.findSlot req.operation_slot_id = some s) :
    (approve_patient db pid req now).1.findSlot req.operation_slot_id =
      some (approveSlotWrite pid req p.operation s) := by
  rw [approve_of_pending req now hp hs]
  have hsl' : db.slots.find? (fun t => t.slot_id == req.operation_slot_id) = some s := hsl
  simp only [DB.findSlot, hsl']
  rw [updateFirst_find? (fun t => t.slot_id == req.operation_slot_id)
    (approveSlotWrite pid req p.operation) (fun a h => h)]
  rw [hsl']
  rfl

theorem reject_of_not_found {db : DB} {pid : String} (reason : String)
    (hr : reason ≠ "") (h : db.findPatient pid = none) :
    reject_patient db pid reason = (db, .err 404 "Patient not found") := by
  unfold reject_patient
  rw [h]
  simp [hr]

theorem reject_of_not_pending {db : DB} {pid : String} {p : Patient} (reason : String)
    (hr : reason ≠ "") (hp : db.findPatient pid = some p) (hs : p.status ≠ "pending") :
    reject_patient db pid reason = (db, .err 400 "Patient is not pending") := by
  unfold reject_patient
  rw [hp]
  simp [hr, hs]

theorem reject_of_pending {db : DB} {pid : String} {p : Patient} (reason : String)
    (hr : reason ≠ "") (hp : db.findPatient pid = some p) (hs : p.status = "pending") :
    reject_patient db pid reason =
      ({ db with
          patients := updateFirst (fun q => q.patient_id == pid)
            (fun q => { q with status := "rejected", rejection_reason := some reason })
            db.patients },
       .ok pid) := by
  unfold reject_patient
  rw [hp]
  simp [hr, hs]

/-! ## Concrete sample data (Scenario A / Scenario B of the spec) -/

/-- The first seeded doctor, 0/12 load. -/
def doc1 : Doctor :=
  { doctor_id := "DOC001", name := "Dr. Petrova Olena",
    specialization := some "Traumatology", available := true,
    max_patients := 12, current_load := 0 }

/-- A fresh pending patient P1. -/
def scenA_patient : Patient :=
  { patient_id := "P1", name := "Ivan Bondar", status := "pending",
    source := "telegram", operation := some "Appendectomy", age := some "45" }

/-- The available morning slot `SLOT_20260210_OR-1_AM`. -/
def scenA_slot : Slot := amSlot ⟨2026, 2, 10⟩ "OR-1"

def scenA_db : DB := { patients := [scenA_patient], doctors := [doc1], slots := [scenA_slot] }

def scenA_req : ApproveRequest :=
  { hospitalization_date := "2026-02-10", assigned_doctor_id := "DOC001",
    operation_slot_id := "SLOT_20260210_OR-1_AM", approved_by := some "admin" }

/-- The same slot, but already reserved for another patient P9 by DOC002. -/
def c1_slot : Slot :=
  { amSlot ⟨2026, 2, 10⟩ "OR-1" with
      status := "reserved", patient_id := some "P9", doctor_id := some "DOC002" }

def c1_db : DB := { patients := [scenA_patient], doctors := [doc1], slots := [c1_slot] }

/-- A pending patient P2 for Scenario B. -/
def scenB_patient : Patient :=
  { patient_id := "P2", name := "Olha Shevchenko", status := "pending", source := "telegram" }

def scenB_db : DB := { patients := [scenB_patient], doctors := [doc1], slots := [scenA_slot] }

/-! ## C1 -/

/-- C1 (amended): the approve handler checks, before mutating anything,
only that the patient exists with status `pending`: success is equivalent
to that single precondition, the doctors table is never written, and a
found slot is overwritten to reserved regardless of its current status —
there is no `status = available` precondition on the slot and no
existence check on the doctor. -/
theorem approve_checks_only_patient_pending (db : DB) (pid : String) (req : ApproveRequest)
    (now : Nat) :
    (approve_patient db pid req now).1.doctors = db.doctors ∧
    ((approve_patient db pid req now).2 = ApiResult.ok pid ↔
      ∃ p, db.findPatient pid = some p ∧ p.status = "pending") ∧
    (∀ p s, db.findPatient pid = some p → p.status = "pending" →
      db.findSlot req.operation_slot_id = some s →
      (approve_patient db pid req now).1.findSlot req.operation_slot_id =
        some (approveSlotWrite pid req p.operation s)) := by
  refine ⟨approve_doctors_eq db pid req now, approve_ok_iff db pid req now, ?_⟩
  intro p s hp hs hsl
  exact approve_find_slot req now hp hs hsl

/-- C1 counterexample: approving pending P1 into the already-reserved slot
`SLOT_20260210_OR-1_AM` (held by P9/DOC002) does not fail: it returns
success and overwrites the slot's `patient_id` and `doctor_id`, refuting
the claim that such an attempt fails clearly and leaves the slot
unchanged. -/
theorem approve_reserved_slot_overwritten :
    c1_db.findSlot "SLOT_20260210_OR-1_AM" = some c1_slot ∧
    c1_slot.status = "reserved" ∧ c1_slot.patient_id = some "P9" ∧
    (approve_patient c1_db "P1" scenA_req 0).2 = ApiResult.ok "P1" ∧
    ((approve_patient c1_db "P1" scenA_req 0).1.findSlot "SLOT_20260210_OR-1_AM").map
      Slot.patient_id = some (some "P1") ∧
    ((approve_patient c1_db "P1" scenA_req 0).1.findSlot "SLOT_20260210_OR-1_AM").map
      Slot.doctor_id = some (some "DOC001") := by
  decide

/-- C1 witness: the amended theorem applied at the reserved-slot state. -/
theorem approve_checks_only_patient_pending_witness :
    (approve_patient c1_db "P1" scenA_req 0).1.doctors = c1_db.doctors ∧
    (approve_patient c1_db "P1" scenA_req 0).1.findSlot "SLOT_20260210_OR-1_AM" =
      some (approveSlotWrite "P1" scenA_req scenA_patient.operation c1_slot) := by
  refine ⟨(approve_checks_only_patient_pending c1_db "P1" scenA_req 0).1, ?_⟩
  exact (approve_checks_only_patient_pending c1_db "P1" scenA_req 0).2.2
    scenA_patient c1_slot (by decide) (by decide) (by decide)

/-! ## C2 -/

/-- C2 (amended): a successful approve of a pending patient with an
existing slot and doctor reserves the slot (`patient_id`, `doctor_id`,
`operation_type`, `status=reserved`) and updates the patient
(`status=approved`, `approved_at`, `approved_by`, `assigned_doctor_id`,
`assigned_doctor_name`, `hospitalization_date`), but stores no
`assigned_slot_id` (no such column exists) and leaves the doctors table —
in particular `current_load` — completely unchanged. -/
theorem approve_success_effects (db : DB) (pid : String) (req : ApproveRequest) (now : Nat)
    (p : Patient) (s : Slot) (d : Doctor)
    (hp : db.findPatient pid = some p) (hs : p.status = "pending")
    (hsl : db.findSlot req.operation_slot_id = some s)
    (hd : db.findDoctor req.assigned_doctor_id = some d) :
    (approve_patient db pid req now).2 = ApiResult.ok pid ∧
    (approve_patient db pid req now).1.findSlot req.operation_slot_id =
      some (approveSlotWrite pid req p.operation s) ∧
    (approve_patient db pid req now).1.findPatient pid =
      some (approvePatientWrite req now (some d.name) p) ∧
    (approve_patient db pid req now).1.doctors = db.doctors := by
  refine ⟨?_, approve_find_slot req now hp hs hsl, ?_, approve_doctors_eq db pid req now⟩
  · exact (approve_ok_iff db pid req now).mpr ⟨p, hp, hs⟩
  · have h := approve_find_patient req now hp hs
    rw [hd] at h
    simpa using h

/-- C2 counterexample (Scenario A): after approving fresh pending P1 into
the available slot with DOC001 at load 0/12, the patient is approved and
the slot reserved, but DOC001's `current_load` is still 0, not 1 — the
handler never increments the doctor's load. -/
theorem approve_does_not_increment_doctor_load :
    ((approve_patient scenA_db "P1" scenA_req 0).1.findPatient "P1").map Patient.status =
      some "approved" ∧
    ((approve_patient scenA_db "P1" scenA_req 0).1.findSlot "SLOT_20260210_OR-1_AM").map
      Slot.status = some "reserved" ∧
    ((approve_patient scenA_db "P1" scenA_req 0).1.findDoctor "DOC001").map
      Doctor.current_load = some 0 ∧
    ¬ ((approve_patient scenA_db "P1" scenA_req 0).1.findDoctor "DOC001").map
      Doctor.current_load = some 1 := by
  decide

/-- C2 witness: the amended theorem applied at Scenario A. -/
theorem approve_success_effects_witness :
    (approve_patient scenA_db "P1" scenA_req 0).2 = ApiResult.ok "P1" ∧
    (approve_patient scenA_db "P1" scenA_req 0).1.findPatient "P1" =
      some (approvePatientWrite scenA_req 0 (some doc1.name) scenA_patient) ∧
    (approve_patient scenA_db "P1" scenA_req 0).1.doctors = scenA_db.doctors := by
  have h := approve_success_effects scenA_db "P1" scenA_req 0 scenA_patient scenA_slot doc1
    (by decide) (by decide) (by decide) (by decide)
  exact ⟨h.1, h.2.2.1, h.2.2.2⟩

/-! ## C3 -/

/-- C3: approve succeeds at most once per patient: whenever a first call
succeeded, a second approve of the same patient returns the 400
"Patient is not pending" conflict response and returns the state of the
first call completely unchanged — slot `patient_id`, doctor
`current_load` and every patient field included. -/
theorem approve_second_call_conflict (db : DB) (pid : String) (req req2 : ApproveRequest)
    (now now2 : Nat)
    (h : (approve_patient db pid req now).2 = ApiResult.ok pid) :
    approve_patient (approve_patient db pid req now).1 pid req2 now2 =
      ((approve_patient db pid req now).1, ApiResult.err 400 "Patient is not pending") := by
  obtain ⟨p, hp, hs⟩ := (approve_ok_iff db pid req now).mp h
  have hfind := approve_find_patient req now hp hs
  exact approve_of_not_pending req2 now2 hfind (show "approved" ≠ "pending" by decide)

/-- C3 witness: second approve of P1 after the successful Scenario A call. -/
theorem approve_second_call_conflict_witness :
    approve_patient (approve_patient scenA_db "P1" scenA_req 0).1 "P1" scenA_req 1 =
      ((approve_patient scenA_db "P1" scenA_req 0).1,
        ApiResult.err 400 "Patient is not pending") :=
  approve_second_call_conflict scenA_db "P1" scenA_req scenA_req 0 1 (by decide)

/-! ## C7 -/

/-- C7: reject is legal only from `pending`: rejecting a patient whose
status is not `pending` is refused with the 400 conflict response and
mutates nothing (an unknown patient gets the 404, also mutating nothing),
while rejecting a pending patient succeeds and rewrites exactly the
`status` and `rejection_reason` fields of that patient (all other fields
of the record are untouched, every other patient row is preserved, no row
is added or removed) and leaves the slots and doctors tables unchanged. -/
theorem reject_pending_effects (db : DB) (pid reason : String) (hr : reason ≠ "") :
    (∀ p, db.findPatient pid = some p → p.status ≠ "pending" →
      reject_patient db pid reason = (db, ApiResult.err 400 "Patient is not pending")) ∧
    (db.findPatient pid = none →
      reject_patient db pid reason = (db, ApiResult.err 404 "Patient not found")) ∧
    (∀ p, db.findPatient pid = some p → p.status = "pending" →
      (reject_patient db pid reason).2 = ApiResult.ok pid ∧
      (reject_patient db pid reason).1.findPatient pid =
        some { p with status := "rejected", rejection_reason := some reason } ∧
      (reject_patient db pid reason).1.slots = db.slots ∧
      (reject_patient db pid reason).1.doctors = db.doctors ∧
      (reject_patient db pid reason).1.patients.length = db.patients.length ∧
      ∀ x ∈ db.patients, x.patient_id ≠ pid → x ∈ (reject_patient db pid reason).1.patients) := by
  refine ⟨fun p hp hs => reject_of_not_pending reason hr hp hs,
          fun h => reject_of_not_found reason hr h, ?_⟩
  intro p hp hs
  rw [reject_of_pending reason hr hp hs]
  refine ⟨rfl, ?_, rfl, rfl, ?_, ?_⟩
  · show (updateFirst (fun q => q.patient_id == pid) _ db.patients).find? _ = _
    rw [updateFirst_find? (fun q => q.patient_id == pid)
      (fun q : Patient => { q with status := "rejected", rejection_reason := some reason })
      (fun a h => h)]
    rw [show db.patients.find? (fun q => q.patient_id == pid) = some p from hp]
    rfl
  · exact updateFirst_length _ _ db.patients
  · intro x hx hne
    exact mem_updateFirst_of_neg _ _ x (by simp [hne]) db.patients hx

/-- C7 witness (Scenario B): rejecting pending P2 with reason "duplicate
request" yields exactly the two field changes and touches no slot or
doctor; a second reject of the now-rejected P2 is refused with the 400
conflict and leaves the state unchanged. -/
theorem reject_pending_effects_witness :
    (reject_patient scenB_db "P2" "duplicate request").2 = ApiResult.ok "P2" ∧
    (reject_patient scenB_db "P2" "duplicate request").1.findPatient "P2" =
      some { scenB_patient with
              status := "rejected", rejection_reason := some "duplicate request" } ∧
    (reject_patient scenB_db "P2" "duplicate request").1.slots = scenB_db.slots ∧
    (reject_patient scenB_db "P2" "duplicate request").1.doctors = scenB_db.doctors ∧
    reject_patient (reject_patient scenB_db "P2" "duplicate request").1 "P2" "again" =
      ((reject_patient scenB_db "P2" "duplicate request").1,
        ApiResult.err 400 "Patient is not pending") := by
  have h := (reject_pending_effects scenB_db "P2" "duplicate request" (by decide)).2.2
    scenB_patient (by decide) (by decide)
  refine ⟨h.1, h.2.1, h.2.2.1, h.2.2.2.1, ?_⟩
  exact (reject_pending_effects (reject_patient scenB_db "P2" "duplicate request").1
      "P2" "again" (by decide)).1
    { scenB_patient with status := "rejected", rejection_reason := some "duplicate request" }
    h.2.1 (by decide)

/-! ## C4 -/

/-- A chat submission that creates a pending patient (patient id
`EX5100` = "EX" + chat id 5 + timestamp 100). -/
def c4_update : TgUpdate :=
  { message := some { chat_id := some 5, text := some "Ahmed Ali, 45, Appendectomy, urgent" } }

/-- The reachable registry state after that submission: one pending
patient, no slots at all. -/
def c4_db : DB := (handle_telegram { doctors := [doc1] } (some c4_update) 100).1

/-- An approve request naming a slot id that does not exist. -/
def c4_req : ApproveRequest :=
  { hospitalization_date := "2026-02-10", assigned_doctor_id := "DOC001",
    operation_slot_id := "SLOT_MISSING" }

/-- C4 counterexample: from the reachable state with pending `EX5100` and
an empty slot pool, approving with a nonexistent slot id still succeeds,
yielding an approved patient while the slot table stays empty — so no
slot whose `patient_id` points back at the patient exists, refuting the
cross-entity invariant (and the schema has no `assigned_slot_id` column
to set in the first place). -/
theorem approved_patient_without_slot :
    (c4_db.findPatient "EX5100").map Patient.status = some "pending" ∧
    (approve_patient c4_db "EX5100" c4_req 200).2 = ApiResult.ok "EX5100" ∧
    ((approve_patient c4_db "EX5100" c4_req 200).1.findPatient "EX5100").map Patient.status =
      some "approved" ∧
    (approve_patient c4_db "EX5100" c4_req 200).1.slots = [] := by
  decide

/-- C4 (amended): when a pending patient is approved into a slot id that
does exist and no slot currently points at the patient, the post-state
has exactly one slot whose `patient_id` is the patient's id — the named
slot, now reserved, with `doctor_id` equal to the request's doctor, which
is also the patient's new `assigned_doctor_id`.  (No `assigned_slot_id`
is recorded, and the guarantee fails when the named slot does not
exist.) -/
theorem approved_patient_slot_backpointer (db : DB) (pid : String) (req : ApproveRequest)
    (now : Nat) (p : Patient) (s : Slot)
    (hp : db.findPatient pid = some p) (hs : p.status = "pending")
    (hsl : db.findSlot req.operation_slot_id = some s)
    (hno : ∀ t ∈ db.slots, t.patient_id ≠ some pid) :
    (approve_patient db pid req now).1.slots.filter (fun t => t.patient_id == some pid) =
      [approveSlotWrite pid req p.operation s] ∧
    ((approve_patient db pid req now).1.findPatient pid).map Patient.assigned_doctor_id =
      some (some req.assigned_doctor_id) := by
  constructor
  · rw [approve_of_pending req now hp hs]
    have hsl' : db.slots.find? (fun t => t.slot_id == req.operation_slot_id) = some s := hsl
    simp only [DB.findSlot, hsl']
    exact filter_updateFirst_single db.slots
      (fun t ht => by rw [beq_eq_false_iff_ne]; exact hno t ht)
      hsl'
      (by simp [approveSlotWrite])
  · rw [approve_find_patient req now hp hs]
    rfl

/-- C4 witness: the amended backpointer theorem at Scenario A. -/
theorem approved_patient_slot_backpointer_witness :
    (approve_patient scenA_db "P1" scenA_req 0).1.slots.filter
      (fun t => t.patient_id == some "P1") =
      [approveSlotWrite "P1" scenA_req scenA_patient.operation scenA_slot] ∧
    ((approve_patient scenA_db "P1" scenA_req 0).1.findPatient "P1").map
      Patient.assigned_doctor_id = some (some "DOC001") := by
  have h := approved_patient_slot_backpointer scenA_db "P1" scenA_req 0 scenA_patient scenA_slot
    (by decide) (by decide) (by decide) (by decide)
  exact h

/-! ## C5 -/

/-- C5 (amended): re-running weekly generation with the same start date
leaves the slot pool exactly as after the first run (slot-set
idempotence, enforced by the key-existence test inside `insert`, i.e. by
the swallowed UNIQUE violation), but both runs report created = 15: the
counter is incremented unconditionally, so the second run does not report
the zero slots it actually created. -/
theorem generate_weekly_second_run (db : DB) (start : Date) :
    (generate_weekly_slots (generate_weekly_slots db start).1 start).1 =
      (generate_weekly_slots db start).1 ∧
    (generate_weekly_slots db start).2 = 15 ∧
    (generate_weekly_slots (generate_weekly_slots db start).1 start).2 = 15 := by
  have hstate : ∀ db2 : DB,
      (generate_weekly_slots db2 start).1 = (weekSlots start).foldl DB.insertSlot db2 := by
    intro db2
    unfold generate_weekly_slots
    rw [genFold_eq]
  have hcount : ∀ db2 : DB, (generate_weekly_slots db2 start).2 = 15 := by
    intro db2
    unfold generate_weekly_slots
    rw [genFold_eq, weekSlots_length]
  refine ⟨?_, hcount db, hcount _⟩
  rw [hstate, hstate]
  exact foldIns_stable _ _ (fun s hs => foldIns_adds _ db s hs)

set_option maxHeartbeats 1600000

/-- C5 counterexample: concretely, for the week of 2026-02-09 on an empty
pool, the first run stores 15 slots; the second run stores nothing new
(still 15 slots) yet reports created = 15, not 0. -/
theorem generate_weekly_second_run_reports_fifteen :
    (generate_weekly_slots ({} : DB) ⟨2026, 2, 9⟩).1.slots.length = 15 ∧
    (generate_weekly_slots (generate_weekly_slots ({} : DB) ⟨2026, 2, 9⟩).1
      ⟨2026, 2, 9⟩).1.slots.length = 15 ∧
    (generate_weekly_slots (generate_weekly_slots ({} : DB) ⟨2026, 2, 9⟩).1 ⟨2026, 2, 9⟩).2 = 15 ∧
    (generate_weekly_slots (generate_weekly_slots ({} : DB) ⟨2026, 2, 9⟩).1 ⟨2026, 2, 9⟩).2 ≠ 0 := by
  decide

/-! ## C9 -/

/-- C9: over a week none of whose 15 deterministically derived slot ids
exist yet, a first run appends exactly the fixed template — for each of
the five consecutive days two morning slots (OR-1, OR-2, 08:00-12:00) and
one afternoon slot (OR-3, 13:00-17:00), all `available`, each slot id
derived from (date, room, shift) — and reports created = 15. -/
theorem generate_weekly_fresh_week_template (db : DB) (start : Date)
    (hnd : ((weekSlots start).map Slot.slot_id).Nodup)
    (hf : ∀ s ∈ weekSlots start, db.hasSlotId s.slot_id = false) :
    (generate_weekly_slots db start).1 = { db with slots := db.slots ++ weekSlots start } ∧
    (generate_weekly_slots db start).2 = 15 ∧
    ∀ s ∈ weekSlots start, s.status = "available" ∧
      s.slot_id = slotIdFor s.date s.or_room (if s.or_room == "OR-3" then "PM" else "AM") ∧
      (s.or_room = "OR-1" ∨ s.or_room = "OR-2" ∨ s.or_room = "OR-3") ∧
      (s.time_start, s.time_end) =
        (if s.or_room == "OR-3" then ("13:00", "17:00") else ("08:00", "12:00")) := by
  have hstate : (generate_weekly_slots db start).1 = (weekSlots start).foldl DB.insertSlot db := by
    unfold generate_weekly_slots
    rw [genFold_eq]
  have hcount : (generate_weekly_slots db start).2 = 15 := by
    unfold generate_weekly_slots
    rw [genFold_eq, weekSlots_length]
  refine ⟨?_, hcount, ?_⟩
  · rw [hstate]
    exact foldIns_fresh _ db hnd hf
  intro s hs
  simp only [weekSlots, List.mem_flatMap, List.mem_range] at hs
  obtain ⟨off, _hoff, hmem⟩ := hs
  simp only [List.mem_cons, List.not_mem_nil, or_false] at hmem
  rcases hmem with h | h | h <;> subst h <;>
    exact ⟨rfl, rfl, by simp [amSlot, pmSlot], rfl⟩

/-- C9 witness: the fresh-week theorem at the empty pool and 2026-02-09. -/
theorem generate_weekly_fresh_week_template_witness :
    ((weekSlots ⟨2026, 2, 9⟩).map Slot.slot_id).Nodup ∧
    (generate_weekly_slots ({} : DB) ⟨2026, 2, 9⟩).1 =
      { ({} : DB) with slots := ([] : List Slot) ++ weekSlots ⟨2026, 2, 9⟩ } ∧
    (generate_weekly_slots ({} : DB) ⟨2026, 2, 9⟩).2 = 15 := by
  have h := generate_weekly_fresh_week_template ({} : DB) ⟨2026, 2, 9⟩ (by decide) (by decide)
  exact ⟨by decide, h.1, h.2.1⟩

/-! ## C6 -/

/-- The planned-patients update branch preserves the match predicate: it
keeps `patient_id` and `name` and sets `source` to `"external"`. -/
theorem plannedMatch_preserved (pid nm : String) (row : SheetRow) (now : Nat) :
    ∀ a : Patient, plannedMatch pid nm a = true →
      plannedMatch pid nm
        ({ a with operation_type := row.operation,
                  planned_admission_date := row.plannedDate,
                  priority := some (pyOrStr row.priority "routine"),
                  status := pyOrStr row.status "planned",
                  source := "external", last_synced_at := some now }) = true := by
  intro a h
  simp only [plannedMatch, Bool.or_eq_true, Bool.and_eq_true] at h ⊢
  rcases h with h | ⟨h1, _h2⟩
  · exact Or.inl h
  · exact Or.inr ⟨h1, by rfl⟩

/-- C6 (amended): when a sheet draft matches an existing patient record
(by `patient_id`, or by `(name, source='external')`), the stored record's
`operation_type`, planned admission date, `priority`, `source` and —
crucially — `status` are all overwritten with the draft's values
(`status` defaulting to "planned"), while `name`, `notes` and `age` are
left as they were.  `status` is not protected: reconciliation can move a
status the approval state machine has advanced straight back to the
draft's status. -/
theorem planned_upsert_overwrites_status (db : DB) (row : SheetRow) (nm : String)
    (now k : Nat) (p : Patient) (hn : row.name = some nm) (hne : nm ≠ "")
    (hm : db.patients.find?
      (plannedMatch (pyOrStr row.patientId ("PL" ++ toString now)) nm) = some p) :
    (processPlannedRow now (db, k) row).2 = k + 1 ∧
    (processPlannedRow now (db, k) row).1.patients.find?
        (plannedMatch (pyOrStr row.patientId ("PL" ++ toString now)) nm) =
      some { p with operation_type := row.operation,
                    planned_admission_date := row.plannedDate,
                    priority := some (pyOrStr row.priority "routine"),
                    status := pyOrStr row.status "planned",
                    source := "external", last_synced_at := some now } := by
  have hne' : (nm == "") = false := beq_eq_false_iff_ne.mpr hne
  unfold processPlannedRow
  rw [hn]
  simp only [hne', Bool.false_eq_true, if_false, hm]
  refine ⟨by trivial, ?_⟩
  show (updateFirst _ _ db.patients).find? _ = _
  rw [updateFirst_find?
    (plannedMatch (pyOrStr row.patientId ("PL" ++ toString now)) nm)
    (fun a : Patient =>
      { a with operation_type := row.operation,
               planned_admission_date := row.plannedDate,
               priority := some (pyOrStr row.priority "routine"),
               status := pyOrStr row.status "planned",
               source := "external", last_synced_at := some now })
    (plannedMatch_preserved _ nm row now)]
  rw [hm]
  rfl

/-- A patient the approval machine has advanced to `approved`. -/
def c6_patient : Patient :=
  { patient_id := "P1", name := "Ivan Bondar", status := "approved", source := "external",
    assigned_doctor_id := some "DOC001" }

def c6_db : DB := { patients := [c6_patient] }

/-- A sheet draft for the same patient with no `Status` cell. -/
def c6_row : SheetRow :=
  { patientId := some "P1", name := some "Ivan Bondar", operation := some "Hernia repair" }

/-- C6 counterexample: upserting the sheet draft over the approved record
regresses its status from "approved" back to "planned", refuting the
claim that an upsert never moves a status backward. -/
theorem planned_upsert_regresses_status :
    c6_patient.status = "approved" ∧
    ((processPlanned c6_db [c6_row] 0).1.findPatient "P1").map Patient.status =
      some "planned" ∧
    ¬ ((processPlanned c6_db [c6_row] 0).1.findPatient "P1").map Patient.status =
      some "approved" := by
  decide

/-- C6 witness: the amended overwrite theorem at the concrete draft. -/
theorem planned_upsert_overwrites_status_witness :
    (processPlannedRow 0 (c6_db, 0) c6_row).2 = 1 ∧
    (processPlannedRow 0 (c6_db, 0) c6_row).1.patients.find?
        (plannedMatch (pyOrStr c6_row.patientId ("PL" ++ toString 0)) "Ivan Bondar") =
      some { c6_patient with
              operation_type := some "Hernia repair",
              planned_admission_date := none,
              priority := some "routine", status := "planned",
              source := "external", last_synced_at := some 0 } := by
  have h := planned_upsert_overwrites_status c6_db c6_row "Ivan Bondar" 0 0 c6_patient
    rfl (by decide) (by decide)
  exact h

/-! ## C8 -/

/-- A sheet row with falsy `Name` is skipped by `continue`: no database
change, no `synced` increment (and no abort). -/
theorem processPlannedRow_skip (now : Nat) (st : DB × Nat) (row : SheetRow)
    (h : pyTruthy row.name = false) : processPlannedRow now st row = st := by
  unfold processPlannedRow
  cases hn : row.name with
  | none => rfl
  | some s =>
    rw [hn] at h
    simp only [pyTruthy, decide_eq_false_iff_not, not_not] at h
    simp [h]

/-- A Cyberintern record with falsy id or falsy name is skipped by
`continue`. -/
theorem processCyberRow_skip (now : Nat) (st : DB × Nat) (row : CyberRow)
    (h : pyTruthy (pyOrOpt row.id row.patient_id) = false ∨
         pyTruthy (pyOrOpt row.name row.full_name) = false) :
    processCyberRow now st row = st := by
  unfold processCyberRow
  cases hpid : pyOrOpt row.id row.patient_id with
  | none => cases hnm : pyOrOpt row.name row.full_name <;> rfl
  | some pid =>
    cases hnm : pyOrOpt row.name row.full_name with
    | none => rfl
    | some nm =>
      rw [hpid, hnm] at h
      simp only [pyTruthy, decide_eq_false_iff_not, not_not] at h
      rcases h with h | h <;> simp [h]

/-- Skipping one element of a fold does not disturb the rest of the
batch. -/
theorem foldl_middle_skip {α β : Type} (f : β → α → β) (i : β) (pre post : List α) (bad : α)
    (h : ∀ st : β, f st bad = st) :
    (pre ++ bad :: post).foldl f i = (pre ++ post).foldl f i := by
  rw [List.foldl_append, List.foldl_append, List.foldl_cons, h]

/-- C8: a malformed draft (missing name — and, for the EMR source, missing
id) fails only itself: the whole run with the bad record inserted
anywhere in a batch equals the run without it (every other record of both
batches is processed, nothing aborts), and the returned summary carries
the aggregated per-source `synced`/`errors` counters. -/
theorem sync_bad_row_isolated (db : DB) (cpre cpost : List CyberRow) (badC : CyberRow)
    (spre spost : List SheetRow) (badS : SheetRow) (now : Nat)
    (hC : pyTruthy (pyOrOpt badC.id badC.patient_id) = false ∨
          pyTruthy (pyOrOpt badC.name badC.full_name) = false)
    (hS : pyTruthy badS.name = false) :
    runSync db (cpre ++ badC :: cpost) (spre ++ badS :: spost) now =
      runSync db (cpre ++ cpost) (spre ++ spost) now ∧
    ∀ (cR : List CyberRow) (sR : List SheetRow),
      (runSync db cR sR now).2.stats =
        { cyberintern_synced := (processCyber db cR now).2,
          cyberintern_errors := 0,
          sheets_synced := (processPlanned (processCyber db cR now).1 sR now).2,
          sheets_errors := 0 } := by
  constructor
  · have hc : processCyber db (cpre ++ badC :: cpost) now = processCyber db (cpre ++ cpost) now := by
      unfold processCyber
      exact foldl_middle_skip (processCyberRow now) (db, 0) cpre cpost badC
        (fun st => processCyberRow_skip now st badC hC)
    have hsheets : ∀ db2 : DB,
        processPlanned db2 (spre ++ badS :: spost) now = processPlanned db2 (spre ++ spost) now := by
      intro db2
      unfold processPlanned
      exact foldl_middle_skip (processPlannedRow now) (db2, 0) spre spost badS
        (fun st => processPlannedRow_skip now st badS hS)
    unfold runSync
    simp only [hc, hsheets]
  · intro cR sR
    rfl

/-- The well-formed row used to show the batch continues past a bad one. -/
def c8_good : SheetRow := { patientId := some "PL1", name := some "Good Row", operation := some "Op" }

/-- A sheet row with no `Name` cell. -/
def c8_bad : SheetRow := { patientId := some "PL2" }

/-- An EMR record with an id but no name. -/
def c8_cyber_bad : CyberRow := { id := some "C1" }

/-- C8 witness: a batch with a nameless EMR record and a nameless sheet
row equals the run without them, and the summary aggregates the per-source
counters (the good row still synced). -/
theorem sync_bad_row_isolated_witness :
    runSync ({} : DB) [c8_cyber_bad] [c8_bad, c8_good] 0 = runSync ({} : DB) [] [c8_good] 0 ∧
    (runSync ({} : DB) [c8_cyber_bad] [c8_bad, c8_good] 0).2.stats =
      { cyberintern_synced := 0, cyberintern_errors := 0,
        sheets_synced := 1, sheets_errors := 0 } := by
  have h := sync_bad_row_isolated ({} : DB) [] [] c8_cyber_bad [] [c8_good] c8_bad 0
    (Or.inr (by decide)) (by decide)
  refine ⟨h.1, ?_⟩
  rw [h.2 [c8_cyber_bad] [c8_bad, c8_good]]
  decide

/-! ## C10 -/

/-- Every branch of the command dispatcher replies with HTTP 200 and
`{"ok": true}`. -/
theorem handleText_snd (db : DB) (cid : Int) (text : String) (now : Nat) :
    (handleText db cid text now).2 = ⟨200, true⟩ := by
  unfold handleText
  repeat first | rfl | (simp only []) | split

/-- C10: the Telegram webhook is total at its boundary: every request —
missing/invalid JSON, no `"message"`, falsy `chat_id`, empty text, or any
dispatched command — gets HTTP 200 with `{"ok": true}` (internal
exceptions are absorbed by the handler's catch-all, which returns the
same), and a payload failing the early checks causes no state change. -/
theorem webhook_always_ok (db : DB) (upd : Option TgUpdate) (now : Nat) :
    (handle_telegram db upd now).2 = ⟨200, true⟩ ∧
    (webhookEarlyExit upd → (handle_telegram db upd now).1 = db) := by
  constructor
  · unfold handle_telegram
    rcases upd with _ | ⟨_ | ⟨c, t⟩⟩
    · rfl
    · rfl
    · rcases c with _ | cid
      · rfl
      · cases h0 : (cid == 0) with
        | true => simp only [h0, if_true]
        | false =>
          simp only [h0, Bool.false_eq_true, if_false]
          cases ht : (pyStrip (t.getD "") == "") with
          | true => simp only [ht, if_true]
          | false =>
            simp only [ht, Bool.false_eq_true, if_false]
            exact handleText_snd db cid (pyStrip (t.getD "")) now
  · intro hearly
    unfold handle_telegram
    rcases upd with _ | ⟨_ | ⟨c, t⟩⟩
    · rfl
    · rfl
    · have h3 : c = none ∨ c = some 0 ∨ pyStrip (t.getD "") = "" := hearly
      rcases h3 with h | h | h
      · subst h; rfl
      · subst h; rfl
      · rcases c with _ | cid
        · rfl
        · cases h0 : (cid == 0) with
          | true => simp only [h0, if_true]
          | false =>
            simp only [h0, Bool.false_eq_true, if_false, h]
            rfl

/-- C10 witness: the totality theorem applied at a bodyless request. -/
theorem webhook_always_ok_witness :
    (handle_telegram ({} : DB) none 0).2 = ⟨200, true⟩ ∧
    (handle_telegram ({} : DB) none 0).1 = ({} : DB) := by
  exact ⟨(webhook_always_ok ({} : DB) none 0).1,
         (webhook_always_ok ({} : DB) none 0).2 trivial⟩

end Zav
